import Mathlib

/-!
# Data-access layer of `src/main/database/consulter.js`

A shallow embedding of the ten exported operations (`get`, `getOne`,
`getOtherByMe`, `create`, `insertMany`, `update`, `remove`, `query`, `count`,
`countOther`) and the properties of their error classification, result shape
and statement construction.

Conventions of the embedding:

* an `async` function that resolves with `v` returns `Except.ok v`; one that
  rejects with `new Error(msg)` returns `Except.error msg`;
* the shared connection is passed explicitly and returned with the statement
  it received appended to its log;
* the statement builder of `./querys` is not part of the sources and is taken
  as a parameter (`Querys`);
* `console.log` output is not part of the embedding.
-/

namespace Consulter

/-! ## Data model -/

/-- A value of a column of a row, of a property of an object, or an id.
Numbers are integers here.  A `Date` is given by what `toJSON()` returns
(`none` for an invalid date) and by its text in a template; a `Buffer` by its
bytes and by its text in a template; `bufferObject bytes` is the plain object
`{type: 'Buffer', data: bytes}`. -/
inductive JsValue where
  | undefined
  | null
  | bool (b : Bool)
  | num (n : Int)
  | str (s : String)
  | date (iso : Option String) (text : String)
  | buffer (bytes : List Nat) (text : String)
  | bufferObject (bytes : List Nat)
  deriving DecidableEq, Repr

/-- An entity (one row, or an object given by the caller): its own enumerable
properties in enumeration order. -/
abbrev Entity := List (String × JsValue)

/-- The value of `Object.values(element)`. -/
def objectValues (element : Entity) : List JsValue :=
  element.map Prod.snd

/-- Property read `object[name]`: `undefined` when the object has no such
property. -/
def getProp : Entity → String → JsValue
  | [], _ => .undefined
  | kv :: rest, name => if kv.1 = name then kv.2 else getProp rest name

/-- The text of a template placeholder holding a value (JS `String(v)`). -/
def JsValue.render : JsValue → String
  | .undefined => "undefined"
  | .null => "null"
  | .bool true => "true"
  | .bool false => "false"
  | .num n => toString n
  | .str s => s
  | .date _ text => text
  | .buffer _ text => text
  | .bufferObject _ => "[object Object]"

/-- The values that `JSON.parse(JSON.stringify(v))` gives back as they are. -/
def JsValue.isJson : JsValue → Bool
  | .null => true
  | .bool _ => true
  | .num _ => true
  | .str _ => true
  | .bufferObject _ => true
  | .undefined => false
  | .date _ _ => false
  | .buffer _ _ => false

/-- What `JSON.parse(JSON.stringify(object))` makes of the value of one
property: `none` when the property is left out (`undefined`); a `Date`
becomes the string of `toJSON()`, or `null` when invalid; a `Buffer` becomes
the plain object of its bytes. -/
def jsonCloneValue : JsValue → Option JsValue
  | .undefined => none
  | .null => some .null
  | .bool b => some (.bool b)
  | .num n => some (.num n)
  | .str s => some (.str s)
  | .date (some iso) _ => some (.str iso)
  | .date none _ => some .null
  | .buffer bytes _ => some (.bufferObject bytes)
  | .bufferObject bytes => some (.bufferObject bytes)

/-- `JSON.parse(JSON.stringify(row))` on a row object: a fresh plain object
with the properties of the row in order, each value copied, the `undefined`
ones left out. -/
def jsonCloneEntity : Entity → Entity
  | [] => []
  | kv :: rest =>
    match jsonCloneValue kv.2 with
    | some v => (kv.1, v) :: jsonCloneEntity rest
    | none => jsonCloneEntity rest

/-- Every value of the object is one that JSON gives back as it is. -/
def isJsonEntity (object : Entity) : Bool :=
  object.all (fun kv => kv.2.isJson)

/-- The query specification `{fields, limit, offset, order, orderField}`;
every option may be left out. -/
structure QuerySpec where
  fields : Option String := none
  limit : Option Nat := none
  offset : Option Nat := none
  order : Option String := none
  orderField : Option String := none
  deriving DecidableEq, Repr

/-- The result header the driver gives for INSERT, UPDATE and DELETE. -/
structure ResultSetHeader where
  affectedRows : Nat
  insertId : Nat
  deriving DecidableEq, Repr

/-- First component of what `connection.query` resolves with: the rows of a
SELECT, or the result header of a write. -/
inductive Payload where
  | rows (rs : List Entity)
  | header (h : ResultSetHeader)
  deriving DecidableEq, Repr

/-- What `connection.query` resolves with: the array `[first, fields]`. -/
structure DriverResult where
  first : Payload
  fields : Option (List String)
  deriving DecidableEq, Repr

/-- A value thrown inside a `try` block, as the `catch` clause sees it:
`error.code` (`none` when the property is missing or is not a string) and the
text of the placeholder holding `error`. -/
structure JsError where
  code : Option String
  text : String
  deriving DecidableEq, Repr

/-- One value of the bound-parameter array given to `connection.query`. -/
inductive Param where
  | scalar (v : JsValue)
  | object (o : Entity)
  | table (vals : List (List JsValue))
  deriving DecidableEq, Repr

/-- The arguments of one call of `connection.query`: the SQL text and the
bound-parameter array (`none` when the call has one argument). -/
structure Statement where
  sql : String
  params : Option (List Param)
  deriving DecidableEq, Repr

/-- The connection of `getConnection()`: how the driver answers a statement
given the statements it has received so far, and those statements. -/
structure Connection where
  respond : List Statement → Statement → Except JsError DriverResult
  log : List Statement

/-- One `await connection.query(...)`: the driver's answer, and the
connection having received the statement. -/
def Connection.query (c : Connection) (s : Statement) :
    Except JsError DriverResult × Connection :=
  (c.respond c.log s, { c with log := c.log ++ [s] })

/-- The functions imported from `./querys`, each taken to return a string on
every argument; `makeInsert` receives `array[0]`, which is `undefined`
(`none`) on an empty array. -/
structure Querys where
  selectSQL : Option QuerySpec → String → String
  selectSQLOne : JsValue → Option QuerySpec → String → String
  selectByFilter : Option QuerySpec → String → String → JsValue → String
  makeInsert : Option Entity → String

/-- `JSON.parse(JSON.stringify(data[0]))`. -/
def jsonClonePayload : Payload → Payload
  | .rows rs => .rows (rs.map jsonCloneEntity)
  | .header h => .header ⟨h.affectedRows, h.insertId⟩

/-! ## Error messages -/

/-- The message of the error thrown by the last line of every `catch`. -/
def connectionMessage (detail : String) : String :=
  "Error en conexion connection la BD, error: " ++ detail

/-- The three kinds of failure a caller can tell apart. -/
inductive ErrorKind where
  | syntaxError
  | schemaError
  | connectionError
  deriving DecidableEq, Repr

/-- The kind of a thrown `Error`, told by its message. -/
def kindOf (message : String) : ErrorKind :=
  if message = "BD_SYNTAX_ERROR" then .syntaxError
  else if message = "BD_TABLE_ERROR" then .schemaError
  else .connectionError

/-- The `catch` clause of `getOne`, `getOtherByMe` and `query`. -/
def catchRead (error : JsError) : String :=
  if error.code = some "ER_PARSE_ERROR" ∨ error.code = some "ER_BAD_FIELD_ERROR" then
    "BD_SYNTAX_ERROR"
  else
    connectionMessage error.text

/-- The `catch` clause of `get`. -/
def catchGet (error : JsError) : String :=
  if error.code = some "ER_PARSE_ERROR" ∨ error.code = some "ER_BAD_FIELD_ERROR" then
    "BD_SYNTAX_ERROR"
  else if error.code = some "ER_NO_SUCH_TABLE" then
    "BD_TABLE_ERROR"
  else
    connectionMessage error.text

/-- The `catch` clause of `create`, `insertMany` and `update`. -/
def catchWrite (error : JsError) : String :=
  if error.code = some "ER_PARSE_ERROR" ∨ error.code = some "ER_BAD_FIELD_ERROR"
      ∨ error.code = some "ER_NO_REFERENCED_ROW_2" then
    "BD_SYNTAX_ERROR"
  else
    connectionMessage error.text

/-! ## The statements given to the connection -/

/-- The arguments of `connection.query` in `create`. -/
def createStatement (model : String) (object : Entity) : Statement :=
  ⟨"INSERT INTO " ++ model ++ " set ?", some [.object object]⟩

/-- The arguments of `connection.query` in `insertMany`: `arrVals` holds
`Object.values` of every element, `fields` is `makeInsert(array[0])`. -/
def insertManyStatement (q : Querys) (model : String) (array : List Entity) : Statement :=
  let arrVals := array.map objectValues
  let fields := q.makeInsert array.head?
  ⟨"INSERT INTO " ++ model ++ " (" ++ fields ++ ") VALUES ?", some [.table arrVals]⟩

/-- The arguments of `connection.query` in `update`. -/
def updateStatement (model : String) (id : JsValue) (object : Entity) : Statement :=
  ⟨"UPDATE " ++ model ++ " set ? WHERE id = ?", some [.object object, .scalar id]⟩

/-- The arguments of `connection.query` in `remove`. -/
def removeStatement (model : String) (id : JsValue) : Statement :=
  ⟨"DELETE FROM " ++ model ++ " WHERE id = ? ", some [.scalar id]⟩

/-- The argument of `connection.query` in `count`. -/
def countStatement (model : String) : Statement :=
  ⟨"SELECT COUNT(id) as total FROM " ++ model, none⟩

/-- The argument of `connection.query` in `countOther`: `model`, `other` and
`id` are all placeholders of the template. -/
def countOtherStatement (model : String) (id : JsValue) (other : String) : Statement :=
  ⟨"SELECT COUNT(id) as total FROM " ++ other ++ " WHERE " ++ model ++ "_id = " ++ id.render,
    none⟩

/-! ## The operations -/

/-- `get (model, query)`. -/
def get (q : Querys) (c : Connection) (model : String) (query : Option QuerySpec) :
    Except String Payload × Connection :=
  let sql := q.selectSQL query model
  match c.query ⟨sql, none⟩ with
  | (.ok data, c') => (.ok (jsonClonePayload data.first), c')
  | (.error error, c') => (.error (catchGet error), c')

/-- `getOne (model, id, query)`; `none` is the `null` it returns. -/
def getOne (q : Querys) (c : Connection) (model : String) (id : JsValue)
    (query : Option QuerySpec) : Except String (Option Entity) × Connection :=
  let sql := q.selectSQLOne id query model
  match c.query ⟨sql, none⟩ with
  | (.ok data, c') =>
    match data.first with
    | .rows (row :: _) => (.ok (some (jsonCloneEntity row)), c')
    | .rows [] => (.ok none, c')
    | .header _ => (.ok none, c')
  | (.error error, c') => (.error (catchRead error), c')

/-- `getOtherByMe (model, id, other, query)`. -/
def getOtherByMe (q : Querys) (c : Connection) (model : String) (id : JsValue)
    (other : String) (query : Option QuerySpec) : Except String Payload × Connection :=
  let sql := q.selectByFilter query other model id
  match c.query ⟨sql, none⟩ with
  | (.ok data, c') => (.ok (jsonClonePayload data.first), c')
  | (.error error, c') => (.error (catchRead error), c')

/-- `create (model, object)`. -/
def create (c : Connection) (model : String) (object : Entity) :
    Except String Payload × Connection :=
  match c.query (createStatement model object) with
  | (.ok inserted, c') => (.ok inserted.first, c')
  | (.error error, c') => (.error (catchWrite error), c')

/-- `insertMany (model, array)`. -/
def insertMany (q : Querys) (c : Connection) (model : String) (array : List Entity) :
    Except String Payload × Connection :=
  match c.query (insertManyStatement q model array) with
  | (.ok inserted, c') => (.ok inserted.first, c')
  | (.error error, c') => (.error (catchWrite error), c')

/-- `update (model, id, object)`. -/
def update (c : Connection) (model : String) (id : JsValue) (object : Entity) :
    Except String Payload × Connection :=
  match c.query (updateStatement model id object) with
  | (.ok updated, c') => (.ok updated.first, c')
  | (.error error, c') => (.error (catchWrite error), c')

/-- `remove (model, id)`: resolves with `deleted`, the whole array the driver
gave. -/
def remove (c : Connection) (model : String) (id : JsValue) :
    Except String DriverResult × Connection :=
  match c.query (removeStatement model id) with
  | (.ok deleted, c') => (.ok deleted, c')
  | (.error error, c') => (.error (connectionMessage error.text), c')

/-- `query (sql)`. -/
def query (c : Connection) (sql : String) : Except String Payload × Connection :=
  match c.query ⟨sql, none⟩ with
  | (.ok data, c') => (.ok (jsonClonePayload data.first), c')
  | (.error error, c') => (.error (catchRead error), c')

/-- The `TypeError` of reading `.total` of `undefined`, as a caught value. -/
def totalOfUndefined : JsError :=
  ⟨none, "TypeError: Cannot read property 'total' of undefined"⟩

/-- The expression `count[0][0].total`, which throws when `count[0][0]` is
`undefined`. -/
def readTotal (count : DriverResult) : Except JsError JsValue :=
  match count.first with
  | .rows (row :: _) => .ok (getProp row "total")
  | .rows [] => .error totalOfUndefined
  | .header _ => .error totalOfUndefined

/-- `count (model)`. -/
def count (c : Connection) (model : String) :
    Except String JsValue × Connection :=
  match c.query (countStatement model) with
  | (.ok count, c') =>
    match readTotal count with
    | .ok total => (.ok total, c')
    | .error error => (.error (connectionMessage error.text), c')
  | (.error error, c') => (.error (connectionMessage error.text), c')

/-- `countOther (model, id, other)`: the placeholder of its `catch` holds
`other`. -/
def countOther (c : Connection) (model : String) (id : JsValue) (other : String) :
    Except String JsValue × Connection :=
  match c.query (countOtherStatement model id other) with
  | (.ok count, c') =>
    match readTotal count with
    | .ok total => (.ok total, c')
    | .error _ => (.error (connectionMessage other), c')
  | (.error _, c') => (.error (connectionMessage other), c')

/-! ## Vocabulary of the properties -/

/-- The operation rejected with an error of kind `k`. -/
def failsWith {α : Type} (r : Except String α) (k : ErrorKind) : Prop :=
  match r with
  | .error message => kindOf message = k
  | .ok _ => False

/-- The classification of `create`, `insertMany` and `update`, on the result
`r` of the operation and the caught value `e`. -/
def WriteClassified {α : Type} (r : Except String α) (e : JsError) : Prop :=
  ((e.code = some "ER_PARSE_ERROR" ∨ e.code = some "ER_BAD_FIELD_ERROR"
      ∨ e.code = some "ER_NO_REFERENCED_ROW_2")
    → failsWith r .syntaxError ∧ ¬ failsWith r .connectionError
      ∧ r = .error "BD_SYNTAX_ERROR")
  ∧ (¬ (e.code = some "ER_PARSE_ERROR" ∨ e.code = some "ER_BAD_FIELD_ERROR"
      ∨ e.code = some "ER_NO_REFERENCED_ROW_2")
    → failsWith r .connectionError ∧ r = .error (connectionMessage e.text))

/-- The result `r` is a rejection of the connection kind and of no other. -/
def OnlyConnection {α : Type} (r : Except String α) : Prop :=
  failsWith r .connectionError ∧ ¬ failsWith r .syntaxError ∧ ¬ failsWith r .schemaError

/-- The message contains the text of the caught value. -/
def carries (message : String) (error : JsError) : Prop :=
  error.text.data <:+: message.data

instance (message : String) (error : JsError) : Decidable (carries message error) :=
  inferInstanceAs (Decidable (error.text.data <:+: message.data))

/-- Reading `.affectedRows` on a first component: the header has it, an array
of rows does not (`none` stands for `undefined`). -/
def Payload.affectedRows : Payload → Option Nat
  | .header h => some h.affectedRows
  | .rows _ => none

/-- Reading `.affectedRows` on the array `[first, fields]` itself: an array
has no such property. -/
def DriverResult.affectedRows (_ : DriverResult) : Option Nat :=
  none

/-! ## Concrete collaborators, for evaluating the operations -/

/-- A connection whose driver rejects every statement with `e`. -/
def failingConnection (e : JsError) : Connection :=
  ⟨fun _ _ => .error e, []⟩

/-- A connection whose driver answers every statement with `r`. -/
def answeringConnection (r : DriverResult) : Connection :=
  ⟨fun _ _ => .ok r, []⟩

/-- A statement builder with fixed projection, and the keys of the first
element as column list. -/
def plainQuerys : Querys where
  selectSQL := fun _ model => "SELECT * FROM " ++ model
  selectSQLOne := fun id _ model => "SELECT * FROM " ++ model ++ " WHERE id = " ++ id.render
  selectByFilter := fun _ other model id =>
    "SELECT * FROM " ++ other ++ " WHERE " ++ model ++ "_id = " ++ id.render
  makeInsert := fun first =>
    match first with
    | some object => ",".intercalate (object.map Prod.fst)
    | none => ""

/-- The failure of the driver on a table that does not exist. -/
def noSuchTable : JsError :=
  ⟨some "ER_NO_SUCH_TABLE", "Error: Table 'pos.missing' doesn't exist"⟩

/-- The failure of the driver when the server cannot be reached. -/
def refused : JsError :=
  ⟨some "ECONNREFUSED", "Error: connect ECONNREFUSED"⟩

/-- The failure of the driver on a statement it cannot parse. -/
def parseFailure : JsError :=
  ⟨some "ER_PARSE_ERROR", "Error: You have an error in your SQL syntax"⟩

/-! ## Facts about the messages -/

theorem connectionMessage_data (detail : String) :
    (connectionMessage detail).data
      = "Error en conexion connection la BD, error: ".data ++ detail.data := by
  simp [connectionMessage, String.data_append]

theorem connectionMessage_ne_syntax (detail : String) :
    connectionMessage detail ≠ "BD_SYNTAX_ERROR" := by
  intro h
  have hd := congrArg String.data h
  rw [connectionMessage_data] at hd
  simp at hd

theorem connectionMessage_ne_table (detail : String) :
    connectionMessage detail ≠ "BD_TABLE_ERROR" := by
  intro h
  have hd := congrArg String.data h
  rw [connectionMessage_data] at hd
  simp at hd

theorem kindOf_connectionMessage (detail : String) :
    kindOf (connectionMessage detail) = .connectionError := by
  simp [kindOf, connectionMessage_ne_syntax, connectionMessage_ne_table]

theorem kindOf_syntax : kindOf "BD_SYNTAX_ERROR" = .syntaxError := by
  simp [kindOf]

theorem kindOf_table : kindOf "BD_TABLE_ERROR" = .schemaError := by
  simp [kindOf]

theorem carries_connectionMessage (error : JsError) :
    carries (connectionMessage error.text) error := by
  unfold carries
  rw [connectionMessage_data]
  exact (List.suffix_append _ _).isInfix

theorem jsonCloneValue_of_isJson (v : JsValue) (hv : v.isJson = true) :
    jsonCloneValue v = some v := by
  cases v <;> simp_all [JsValue.isJson, jsonCloneValue]

theorem jsonCloneEntity_of_isJson (row : Entity) (hrow : isJsonEntity row = true) :
    jsonCloneEntity row = row := by
  induction row with
  | nil => rfl
  | cons kv rest ih =>
    simp only [isJsonEntity, List.all_cons, Bool.and_eq_true] at hrow
    have hrest : isJsonEntity rest = true := hrow.2
    simp only [jsonCloneEntity, jsonCloneValue_of_isJson kv.2 hrow.1, ih hrest]

theorem getProp_jsonCloneEntity (row : Entity) (name : String)
    (hv : (getProp row name).isJson = true) :
    getProp (jsonCloneEntity row) name = getProp row name := by
  induction row with
  | nil => rfl
  | cons kv rest ih =>
    by_cases hk : kv.1 = name
    · simp only [getProp, hk, if_true] at hv ⊢
      simp only [jsonCloneEntity, jsonCloneValue_of_isJson kv.2 hv, getProp, hk, if_true]
    · simp only [getProp, hk, if_false] at hv ⊢
      simp only [jsonCloneEntity]
      cases hc : jsonCloneValue kv.2 with
      | none => exact ih hv
      | some v =>
        simp only [getProp, hk, if_false]
        exact ih hv

/-! ## Error classification of the reads -/

/-- Claim C1: when the driver rejects the statement of `get` with `e`, `get`
rejects too and never resolves; the rejection is of the syntax kind (message
`BD_SYNTAX_ERROR`) exactly when `e.code` is `ER_PARSE_ERROR` or
`ER_BAD_FIELD_ERROR`, of the schema kind (message `BD_TABLE_ERROR`) exactly
when `e.code` is `ER_NO_SUCH_TABLE`, and of the connection kind for every
other `e`. -/
theorem get_classifies_driver_failure (q : Querys) (c : Connection) (model : String)
    (query : Option QuerySpec) (e : JsError)
    (h : c.respond c.log ⟨q.selectSQL query model, none⟩ = .error e) :
    (failsWith (get q c model query).1 .syntaxError
        ↔ (e.code = some "ER_PARSE_ERROR" ∨ e.code = some "ER_BAD_FIELD_ERROR"))
    ∧ ((get q c model query).1 = .error "BD_SYNTAX_ERROR"
        ↔ (e.code = some "ER_PARSE_ERROR" ∨ e.code = some "ER_BAD_FIELD_ERROR"))
    ∧ (failsWith (get q c model query).1 .schemaError ↔ e.code = some "ER_NO_SUCH_TABLE")
    ∧ ((get q c model query).1 = .error "BD_TABLE_ERROR" ↔ e.code = some "ER_NO_SUCH_TABLE")
    ∧ (¬ (e.code = some "ER_PARSE_ERROR" ∨ e.code = some "ER_BAD_FIELD_ERROR")
        → e.code ≠ some "ER_NO_SUCH_TABLE"
        → failsWith (get q c model query).1 .connectionError
          ∧ (get q c model query).1 = .error (connectionMessage e.text))
    ∧ (∀ v, (get q c model query).1 ≠ .ok v) := by
  have hget : (get q c model query).1 = .error (catchGet e) := by
    simp [get, Connection.query, h]
  rw [hget]
  by_cases h1 : e.code = some "ER_PARSE_ERROR" ∨ e.code = some "ER_BAD_FIELD_ERROR"
  · have hne : e.code ≠ some "ER_NO_SUCH_TABLE" := by
      rcases h1 with h1 | h1 <;> simp [h1]
    simp [catchGet, failsWith, h1, hne, kindOf]
  · by_cases h2 : e.code = some "ER_NO_SUCH_TABLE"
    · simp [catchGet, failsWith, h2, kindOf]
    · simp [catchGet, failsWith, h1, h2, kindOf_connectionMessage,
        connectionMessage_ne_syntax, connectionMessage_ne_table]

/-- Witness of `get_classifies_driver_failure`: a driver that cannot parse the
statement. -/
theorem get_classifies_driver_failure_witness :
    (failsWith (get plainQuerys (failingConnection parseFailure) "users" none).1 .syntaxError
        ↔ (parseFailure.code = some "ER_PARSE_ERROR"
            ∨ parseFailure.code = some "ER_BAD_FIELD_ERROR"))
    ∧ (get plainQuerys (failingConnection parseFailure) "users" none).1
        = .error "BD_SYNTAX_ERROR" :=
  have h := get_classifies_driver_failure plainQuerys (failingConnection parseFailure)
    "users" none parseFailure rfl
  ⟨h.1, h.2.1.mpr (Or.inl rfl)⟩

/-! ## Result of `getOne` -/

/-- Claim C4, as amended: when the driver answers the statement of `getOne`
with a list of rows, `getOne` resolves: with `null` when the list is empty,
and with the JSON copy of the first row when it is not; the copy is equal to
the row when every value of the row is one that JSON gives back as it is, and
its `id` is that of the row when the row's `id` is such a value. -/
theorem getOne_resolves_json_copy (q : Querys) (c : Connection) (model : String)
    (id : JsValue) (query : Option QuerySpec) (rs : List Entity)
    (fields : Option (List String))
    (h : c.respond c.log ⟨q.selectSQLOne id query model, none⟩ = .ok ⟨.rows rs, fields⟩) :
    (rs = [] → (getOne q c model id query).1 = .ok none)
    ∧ (∀ row rest, rs = row :: rest →
        (getOne q c model id query).1 = .ok (some (jsonCloneEntity row))
        ∧ (isJsonEntity row = true → (getOne q c model id query).1 = .ok (some row))
        ∧ ((getProp row "id").isJson = true →
            ∃ entity, (getOne q c model id query).1 = .ok (some entity)
              ∧ getProp entity "id" = getProp row "id")) := by
  constructor
  · intro hrs
    subst hrs
    simp [getOne, Connection.query, h]
  · intro row rest hrs
    subst hrs
    have hone : (getOne q c model id query).1 = .ok (some (jsonCloneEntity row)) := by
      simp [getOne, Connection.query, h]
    refine ⟨hone, fun hrow => ?_, fun hid => ?_⟩
    · rw [hone, jsonCloneEntity_of_isJson row hrow]
    · exact ⟨jsonCloneEntity row, hone, getProp_jsonCloneEntity row "id" hid⟩

/-- Witness of `getOne_resolves_json_copy`: the driver finds the row of id 7,
whose values are a number and a string. -/
theorem getOne_resolves_json_copy_witness :
    (getOne plainQuerys
        (answeringConnection ⟨.rows [[("id", .num 7), ("name", .str "Ana")]], none⟩)
        "users" (.num 7) none).1
      = .ok (some [("id", .num 7), ("name", .str "Ana")]) :=
  ((getOne_resolves_json_copy plainQuerys
      (answeringConnection ⟨.rows [[("id", .num 7), ("name", .str "Ana")]], none⟩)
      "users" (.num 7) none [[("id", .num 7), ("name", .str "Ana")]] none rfl).2
    [("id", .num 7), ("name", .str "Ana")] [] rfl).2.1 rfl

/-- Claim C4, as first stated, fails: on a first row with a `Date` column
`getOne` resolves with an entity that holds the ISO string of the date, which
is not the row; so it is not true that `getOne` resolves with the first row
for every answer of the driver. -/
theorem getOne_date_row_is_not_the_row :
    (getOne plainQuerys
        (answeringConnection
          ⟨.rows [[("id", .num 7),
            ("created", .date (some "2020-01-01T00:00:00.000Z") "Wed Jan 01 2020")]], none⟩)
        "users" (.num 7) none).1
      = .ok (some [("id", .num 7), ("created", .str "2020-01-01T00:00:00.000Z")])
    ∧ (getOne plainQuerys
        (answeringConnection
          ⟨.rows [[("id", .num 7),
            ("created", .date (some "2020-01-01T00:00:00.000Z") "Wed Jan 01 2020")]], none⟩)
        "users" (.num 7) none).1
      ≠ .ok (some [("id", .num 7),
          ("created", .date (some "2020-01-01T00:00:00.000Z") "Wed Jan 01 2020")])
    ∧ ¬ (∀ (q : Querys) (c : Connection) (model : String) (id : JsValue)
          (query : Option QuerySpec) (row : Entity) (rest : List Entity)
          (fields : Option (List String)),
          c.respond c.log ⟨q.selectSQLOne id query model, none⟩
              = .ok ⟨.rows (row :: rest), fields⟩
            → (getOne q c model id query).1 = .ok (some row)) := by
  have heval : (getOne plainQuerys
      (answeringConnection
        ⟨.rows [[("id", .num 7),
          ("created", .date (some "2020-01-01T00:00:00.000Z") "Wed Jan 01 2020")]], none⟩)
      "users" (.num 7) none).1
      = .ok (some [("id", .num 7), ("created", .str "2020-01-01T00:00:00.000Z")]) := rfl
  have hne : (Except.ok (some [("id", JsValue.num 7),
        ("created", JsValue.str "2020-01-01T00:00:00.000Z")]) : Except String (Option Entity))
      ≠ .ok (some [("id", .num 7),
          ("created", .date (some "2020-01-01T00:00:00.000Z") "Wed Jan 01 2020")]) := by
    simp
  refine ⟨heval, ?_, fun hall => ?_⟩
  · rw [heval]
    exact hne
  · have hrow := hall plainQuerys
      (answeringConnection
        ⟨.rows [[("id", .num 7),
          ("created", .date (some "2020-01-01T00:00:00.000Z") "Wed Jan 01 2020")]], none⟩)
      "users" (.num 7) none
      [("id", .num 7), ("created", .date (some "2020-01-01T00:00:00.000Z") "Wed Jan 01 2020")]
      [] none rfl
    rw [heval] at hrow
    exact hne hrow

/-! ## Error classification of the writes -/

theorem catchWrite_of_code (e : JsError)
    (h : e.code = some "ER_PARSE_ERROR" ∨ e.code = some "ER_BAD_FIELD_ERROR"
      ∨ e.code = some "ER_NO_REFERENCED_ROW_2") :
    catchWrite e = "BD_SYNTAX_ERROR" := by
  simp [catchWrite, h]

theorem catchWrite_of_other (e : JsError)
    (h : ¬ (e.code = some "ER_PARSE_ERROR" ∨ e.code = some "ER_BAD_FIELD_ERROR"
      ∨ e.code = some "ER_NO_REFERENCED_ROW_2")) :
    catchWrite e = connectionMessage e.text := by
  simp [catchWrite, h]

theorem writeClassified_catchWrite {α : Type} (e : JsError) :
    WriteClassified (Except.error (catchWrite e) : Except String α) e := by
  constructor
  · intro h
    rw [catchWrite_of_code e h]
    simp [failsWith, kindOf]
  · intro h
    rw [catchWrite_of_other e h]
    simp [failsWith, kindOf_connectionMessage]

/-- Claim C5: when the driver rejects the statement of `create`, of
`insertMany` or of `update` with `e`, the operation rejects with the syntax
kind, not the connection kind, if `e.code` is `ER_PARSE_ERROR`,
`ER_BAD_FIELD_ERROR` or `ER_NO_REFERENCED_ROW_2`, and with the connection
kind for every other `e`. -/
theorem writes_classify_driver_failure (q : Querys) (c : Connection) (model : String)
    (id : JsValue) (object : Entity) (array : List Entity) (e : JsError) :
    (c.respond c.log (createStatement model object) = .error e
        → WriteClassified (create c model object).1 e)
    ∧ (c.respond c.log (insertManyStatement q model array) = .error e
        → WriteClassified (insertMany q c model array).1 e)
    ∧ (c.respond c.log (updateStatement model id object) = .error e
        → WriteClassified (update c model id object).1 e) := by
  refine ⟨fun h => ?_, fun h => ?_, fun h => ?_⟩
  · have hr : (create c model object).1 = .error (catchWrite e) := by
      simp [create, Connection.query, h]
    rw [hr]
    exact writeClassified_catchWrite e
  · have hr : (insertMany q c model array).1 = .error (catchWrite e) := by
      simp [insertMany, Connection.query, h]
    rw [hr]
    exact writeClassified_catchWrite e
  · have hr : (update c model id object).1 = .error (catchWrite e) := by
      simp [update, Connection.query, h]
    rw [hr]
    exact writeClassified_catchWrite e

/-- Witness of `writes_classify_driver_failure`: a driver that cannot parse
any statement. -/
theorem writes_classify_driver_failure_witness :
    (create (failingConnection parseFailure) "users" [("name", .str "Ana")]).1
        = .error "BD_SYNTAX_ERROR"
    ∧ (insertMany plainQuerys (failingConnection parseFailure) "users"
        [[("name", .str "Ana")], [("name", .str "Luis")]]).1 = .error "BD_SYNTAX_ERROR"
    ∧ (update (failingConnection parseFailure) "users" (.num 1) [("name", .str "Ana")]).1
        = .error "BD_SYNTAX_ERROR" :=
  have h := writes_classify_driver_failure plainQuerys (failingConnection parseFailure)
    "users" (.num 1) [("name", .str "Ana")]
    [[("name", .str "Ana")], [("name", .str "Luis")]] parseFailure
  ⟨((h.1 rfl).1 (Or.inl rfl)).2.2, ((h.2.1 rfl).1 (Or.inl rfl)).2.2,
    ((h.2.2 rfl).1 (Or.inl rfl)).2.2⟩

/-! ## The operations without classification -/

theorem onlyConnection_connectionMessage {α : Type} (detail : String) :
    OnlyConnection (Except.error (connectionMessage detail) : Except String α) := by
  simp [OnlyConnection, failsWith, kindOf_connectionMessage]

/-- Claim C6: every failure raised while `remove`, `count` or `countOther`
runs, whatever its code, is a rejection with the connection message, of the
connection kind and never of the syntax or schema kind: when the driver
rejects the statement with `e`, `remove` and `count` reject with the
connection message of the text of `e` and `countOther` with the connection
message of `other`; and every rejection of the three operations is a
connection message, never `BD_SYNTAX_ERROR` or `BD_TABLE_ERROR`. -/
theorem unclassified_operations_reject_with_connection (c : Connection) (model : String)
    (id : JsValue) (other : String) :
    ((∀ e, c.respond c.log (removeStatement model id) = .error e
        → (remove c model id).1 = .error (connectionMessage e.text)
          ∧ OnlyConnection (remove c model id).1)
      ∧ ∀ message, (remove c model id).1 = .error message
        → (∃ detail, message = connectionMessage detail)
          ∧ kindOf message = .connectionError
          ∧ message ≠ "BD_SYNTAX_ERROR" ∧ message ≠ "BD_TABLE_ERROR")
    ∧ ((∀ e, c.respond c.log (countStatement model) = .error e
        → (count c model).1 = .error (connectionMessage e.text)
          ∧ OnlyConnection (count c model).1)
      ∧ ∀ message, (count c model).1 = .error message
        → (∃ detail, message = connectionMessage detail)
          ∧ kindOf message = .connectionError
          ∧ message ≠ "BD_SYNTAX_ERROR" ∧ message ≠ "BD_TABLE_ERROR")
    ∧ ((∀ e, c.respond c.log (countOtherStatement model id other) = .error e
        → (countOther c model id other).1 = .error (connectionMessage other)
          ∧ OnlyConnection (countOther c model id other).1)
      ∧ ∀ message, (countOther c model id other).1 = .error message
        → (∃ detail, message = connectionMessage detail)
          ∧ kindOf message = .connectionError
          ∧ message ≠ "BD_SYNTAX_ERROR" ∧ message ≠ "BD_TABLE_ERROR") := by
  have hshape : ∀ detail message : String, connectionMessage detail = message →
      (∃ detail, message = connectionMessage detail)
        ∧ kindOf message = .connectionError
        ∧ message ≠ "BD_SYNTAX_ERROR" ∧ message ≠ "BD_TABLE_ERROR" := by
    intro detail message hm
    subst hm
    exact ⟨⟨detail, rfl⟩, kindOf_connectionMessage _, connectionMessage_ne_syntax _,
      connectionMessage_ne_table _⟩
  refine ⟨⟨fun e h => ?_, fun message hm => ?_⟩, ⟨fun e h => ?_, fun message hm => ?_⟩,
    ⟨fun e h => ?_, fun message hm => ?_⟩⟩
  · have hr : (remove c model id).1 = .error (connectionMessage e.text) := by
      simp [remove, Connection.query, h]
    rw [hr]
    exact ⟨rfl, onlyConnection_connectionMessage _⟩
  · simp only [remove, Connection.query] at hm
    cases hres : c.respond c.log (removeStatement model id) with
    | ok r => simp [hres] at hm
    | error e =>
      simp only [hres, Except.error.injEq] at hm
      exact hshape _ _ hm
  · have hr : (count c model).1 = .error (connectionMessage e.text) := by
      simp [count, Connection.query, h]
    rw [hr]
    exact ⟨rfl, onlyConnection_connectionMessage _⟩
  · simp only [count, Connection.query] at hm
    cases hres : c.respond c.log (countStatement model) with
    | ok r =>
      simp only [hres] at hm
      cases htot : readTotal r with
      | ok t => simp [htot] at hm
      | error e =>
        simp only [htot, Except.error.injEq] at hm
        exact hshape _ _ hm
    | error e =>
      simp only [hres, Except.error.injEq] at hm
      exact hshape _ _ hm
  · have hr : (countOther c model id other).1 = .error (connectionMessage other) := by
      simp [countOther, Connection.query, h]
    rw [hr]
    exact ⟨rfl, onlyConnection_connectionMessage _⟩
  · simp only [countOther, Connection.query] at hm
    cases hres : c.respond c.log (countOtherStatement model id other) with
    | ok r =>
      simp only [hres] at hm
      cases htot : readTotal r with
      | ok t => simp [htot] at hm
      | error e =>
        simp only [htot, Except.error.injEq] at hm
        exact hshape _ _ hm
    | error e =>
      simp only [hres, Except.error.injEq] at hm
      exact hshape _ _ hm

/-- Witness of `unclassified_operations_reject_with_connection`: a driver that
cannot parse any statement. -/
theorem unclassified_operations_reject_with_connection_witness :
    ((remove (failingConnection parseFailure) "users" (.num 1)).1
        = .error (connectionMessage "Error: You have an error in your SQL syntax")
      ∧ OnlyConnection (remove (failingConnection parseFailure) "users" (.num 1)).1)
    ∧ ((count (failingConnection parseFailure) "users").1
        = .error (connectionMessage "Error: You have an error in your SQL syntax")
      ∧ OnlyConnection (count (failingConnection parseFailure) "users").1)
    ∧ ((countOther (failingConnection parseFailure) "users" (.num 1) "orders").1
        = .error (connectionMessage "orders")
      ∧ OnlyConnection
        (countOther (failingConnection parseFailure) "users" (.num 1) "orders").1) :=
  have h := unclassified_operations_reject_with_connection
    (failingConnection parseFailure) "users" (.num 1) "orders"
  ⟨h.1.1 parseFailure rfl, h.2.1.1 parseFailure rfl, h.2.2.1 parseFailure rfl⟩

/-! ## The statement of `insertMany` -/

/-- Claim C8: for every table and every sequence of entities with a first
element, `insertMany` gives the connection exactly one statement; its column
list is `makeInsert` of the first element, and its one bound parameter is the
list of the `Object.values` of each element, in the order and of the length
of the input. -/
theorem insertMany_issues_one_statement (q : Querys) (c : Connection) (model : String)
    (first : Entity) (rest : List Entity) :
    (insertMany q c model (first :: rest)).2.log
        = c.log ++ [⟨"INSERT INTO " ++ model ++ " (" ++ q.makeInsert (some first)
            ++ ") VALUES ?", some [.table ((first :: rest).map objectValues)]⟩]
    ∧ ((insertMany q c model (first :: rest)).2.log).length = c.log.length + 1
    ∧ ((first :: rest).map objectValues).length = (first :: rest).length
    ∧ ∀ (i : Nat) (element : Entity), (first :: rest)[i]? = some element
        → ((first :: rest).map objectValues)[i]? = some (objectValues element) := by
  have hlog : (insertMany q c model (first :: rest)).2.log
      = c.log ++ [⟨"INSERT INTO " ++ model ++ " (" ++ q.makeInsert (some first)
          ++ ") VALUES ?", some [.table ((first :: rest).map objectValues)]⟩] := by
    unfold insertMany
    cases hres : c.respond c.log (insertManyStatement q model (first :: rest)) <;>
      simp only [Connection.query, hres] <;>
      simp [insertManyStatement]
  refine ⟨hlog, ?_, ?_, ?_⟩
  · rw [hlog]
    simp
  · simp
  · intro i element hi
    rw [List.getElem?_map, hi]
    rfl

/-- Witness of `insertMany_issues_one_statement`: two entities, one statement
with two rows of values. -/
theorem insertMany_issues_one_statement_witness :
    (insertMany plainQuerys (failingConnection refused) "users"
        [[("name", .str "Ana"), ("age", .num 30)], [("name", .str "Luis"), ("age", .num 41)]]
      ).2.log
      = [⟨"INSERT INTO users (name,age) VALUES ?",
          some [.table [[.str "Ana", .num 30], [.str "Luis", .num 41]]]⟩] :=
  (insertMany_issues_one_statement plainQuerys (failingConnection refused) "users"
    [("name", .str "Ana"), ("age", .num 30)] [[("name", .str "Luis"), ("age", .num 41)]]).1

/-! ## Evaluations -/

/-- Claim C2, evaluated: on a driver that rejects with `ER_NO_SUCH_TABLE`,
`get` rejects with `BD_TABLE_ERROR` (schema kind) while `query` rejects with
the connection message (connection kind). -/
theorem query_no_such_table_is_connection_error :
    (get plainQuerys (failingConnection noSuchTable) "missing" none).1
        = .error "BD_TABLE_ERROR"
    ∧ (query (failingConnection noSuchTable) "SELECT * FROM missing").1
        = .error (connectionMessage noSuchTable.text)
    ∧ failsWith (query (failingConnection noSuchTable) "SELECT * FROM missing").1
        .connectionError
    ∧ ¬ failsWith (query (failingConnection noSuchTable) "SELECT * FROM missing").1
        .schemaError := by
  have hq : (query (failingConnection noSuchTable) "SELECT * FROM missing").1
      = .error (connectionMessage noSuchTable.text) := by
    simp [query, Connection.query, failingConnection, catchRead, noSuchTable]
  refine ⟨?_, hq, ?_, ?_⟩
  · simp [get, Connection.query, failingConnection, catchGet, noSuchTable]
  · rw [hq]
    simp [failsWith, kindOf_connectionMessage]
  · rw [hq]
    simp [failsWith, kindOf_connectionMessage]

/-- Claim C3, evaluated: on a driver that rejects with `ER_NO_SUCH_TABLE`,
`get` rejects with the schema kind while `getOtherByMe` rejects with the
connection kind. -/
theorem getOtherByMe_no_such_table_is_connection_error :
    failsWith (get plainQuerys (failingConnection noSuchTable) "missing" none).1
        .schemaError
    ∧ (getOtherByMe plainQuerys (failingConnection noSuchTable) "users" (.num 1)
        "missing" none).1 = .error (connectionMessage noSuchTable.text)
    ∧ failsWith (getOtherByMe plainQuerys (failingConnection noSuchTable) "users" (.num 1)
        "missing" none).1 .connectionError := by
  have hg : (getOtherByMe plainQuerys (failingConnection noSuchTable) "users" (.num 1)
      "missing" none).1 = .error (connectionMessage noSuchTable.text) := by
    simp [getOtherByMe, Connection.query, failingConnection, catchRead, noSuchTable]
  refine ⟨?_, hg, ?_⟩
  · simp [get, Connection.query, failingConnection, catchGet, noSuchTable, failsWith, kindOf]
  · rw [hg]
    simp [failsWith, kindOf_connectionMessage]

/-- Claim C7, evaluated: on a driver that rejects with `refused`, `count`
rejects with a message that carries the text of the failure, while
`countOther` rejects with a message that holds the name of the other table
and does not carry the text of the failure. -/
theorem countOther_drops_the_failure :
    (count (failingConnection refused) "users").1
        = .error "Error en conexion connection la BD, error: Error: connect ECONNREFUSED"
    ∧ carries "Error en conexion connection la BD, error: Error: connect ECONNREFUSED"
        refused
    ∧ (countOther (failingConnection refused) "users" (.num 1) "orders").1
        = .error "Error en conexion connection la BD, error: orders"
    ∧ ¬ carries "Error en conexion connection la BD, error: orders" refused := by
  refine ⟨?_, ?_, ?_, ?_⟩
  · rfl
  · decide
  · rfl
  · decide

/-- Claim C9, evaluated: two calls of `countOther` that differ only in the id
give the connection two different SQL texts and no bound parameter; the id,
whatever its text, is part of the SQL. -/
theorem countOther_interpolates_the_id :
    countOtherStatement "users" (.num 1) "orders"
        = ⟨"SELECT COUNT(id) as total FROM orders WHERE users_id = 1", none⟩
    ∧ countOtherStatement "users" (.num 2) "orders"
        = ⟨"SELECT COUNT(id) as total FROM orders WHERE users_id = 2", none⟩
    ∧ (countOtherStatement "users" (.num 1) "orders").sql
        ≠ (countOtherStatement "users" (.num 2) "orders").sql
    ∧ countOtherStatement "users" (.str "1 OR 1=1") "orders"
        = ⟨"SELECT COUNT(id) as total FROM orders WHERE users_id = 1 OR 1=1", none⟩
    ∧ (countOther (failingConnection refused) "users" (.num 1) "orders").2.log
        = [⟨"SELECT COUNT(id) as total FROM orders WHERE users_id = 1", none⟩] := by
  refine ⟨?_, ?_, ?_, ?_, ?_⟩
  · decide
  · decide
  · decide
  · decide
  · decide

/-- Claim C10, evaluated: when the driver answers the DELETE with a header of
zero affected rows, `remove` resolves with the whole array `[header, fields]`,
on which `affectedRows` is `undefined`, while `create` and `update` resolve
with the header, on which it is zero. -/
theorem remove_resolves_with_whole_array :
    (remove (answeringConnection ⟨.header ⟨0, 0⟩, none⟩) "users" (.num 999)).1
        = .ok ⟨.header ⟨0, 0⟩, none⟩
    ∧ DriverResult.affectedRows ⟨.header ⟨0, 0⟩, none⟩ = none
    ∧ (update (answeringConnection ⟨.header ⟨0, 0⟩, none⟩) "users" (.num 999)
        [("name", .str "Ana")]).1 = .ok (.header ⟨0, 0⟩)
    ∧ (create (answeringConnection ⟨.header ⟨0, 0⟩, none⟩) "users"
        [("name", .str "Ana")]).1 = .ok (.header ⟨0, 0⟩)
    ∧ Payload.affectedRows (.header ⟨0, 0⟩) = some 0 := by
  refine ⟨rfl, rfl, rfl, rfl, rfl⟩

/-! ## Supporting facts on the sibling operations -/

theorem catchRead_carries (e : JsError)
    (hk : kindOf (catchRead e) = .connectionError) : carries (catchRead e) e := by
  by_cases h : e.code = some "ER_PARSE_ERROR" ∨ e.code = some "ER_BAD_FIELD_ERROR"
  · simp [catchRead, h, kindOf] at hk
  · simp only [catchRead, h, if_false]
    exact carries_connectionMessage e

theorem catchGet_carries (e : JsError)
    (hk : kindOf (catchGet e) = .connectionError) : carries (catchGet e) e := by
  by_cases h : e.code = some "ER_PARSE_ERROR" ∨ e.code = some "ER_BAD_FIELD_ERROR"
  · simp [catchGet, h, kindOf] at hk
  · by_cases h2 : e.code = some "ER_NO_SUCH_TABLE"
    · simp [catchGet, h2, kindOf] at hk
    · simp only [catchGet, h, h2, if_false]
      exact carries_connectionMessage e

theorem catchWrite_carries (e : JsError)
    (hk : kindOf (catchWrite e) = .connectionError) : carries (catchWrite e) e := by
  by_cases h : e.code = some "ER_PARSE_ERROR" ∨ e.code = some "ER_BAD_FIELD_ERROR"
      ∨ e.code = some "ER_NO_REFERENCED_ROW_2"
  · simp [catchWrite, h, kindOf] at hk
  · simp only [catchWrite, h, if_false]
    exact carries_connectionMessage e

/-- In `remove` and `count`, the message of the rejection carries the text of
the failure of the driver. -/
theorem remove_count_carry_failure (c : Connection) (model : String) (id : JsValue)
    (e : JsError) :
    (c.respond c.log (removeStatement model id) = .error e →
        ∃ message, (remove c model id).1 = .error message ∧ carries message e)
    ∧ (c.respond c.log (countStatement model) = .error e →
        ∃ message, (count c model).1 = .error message ∧ carries message e) := by
  constructor
  · intro h
    exact ⟨connectionMessage e.text, by simp [remove, Connection.query, h],
      carries_connectionMessage e⟩
  · intro h
    exact ⟨connectionMessage e.text, by simp [count, Connection.query, h],
      carries_connectionMessage e⟩

/-- In `create`, `update`, `remove` and `count` the SQL text is the same for
all ids and entities. -/
theorem bound_statements_sql_independent (model : String) (id id' : JsValue)
    (object object' : Entity) :
    (createStatement model object).sql = (createStatement model object').sql
    ∧ (updateStatement model id object).sql = (updateStatement model id' object').sql
    ∧ (removeStatement model id).sql = (removeStatement model id').sql :=
  ⟨rfl, rfl, rfl⟩

end Consulter
